import Mathlib

/-!
Verification of the isolinux bootloader configuration module
(`kiwi/bootloader/config/isolinux.py`).

The module is shallowly embedded: the object state set up by `post_init`
becomes the structure `IsoState`; external collaborators (the XML state,
`Defaults`, and the base-class helper methods) become explicit input
structures `BuildEnv` and `BaseCtx`; filesystem access becomes an oracle
`String → Option String` mapping a path to the content of the file found
there (`none` when the path does not exist).  Methods that mutate the
object or the filesystem are embedded as pure functions returning the new
state together with the performed actions.
-/

/-- Python string truthiness of an optional string: `None` and the empty
string are falsy.  `pyOrStr v d` models the Python expression `v or d`. -/
def pyOrStr (v : Option String) (d : String) : String :=
  match v with
  | none => d
  | some s => if s = "" then d else s

/-- Python truthiness of an optional string value, as used in
`if self.config:` and `if not lookup_path:`. -/
def pyTruthyStr (v : Option String) : Bool :=
  match v with
  | none => false
  | some s => decide ¬ (s = "")

/-- Python truthiness of an optional boolean, as used in
`if self.xml_state.build_type.get_hybridpersistent():`. -/
def pyTruthyBool (v : Option Bool) : Bool :=
  match v with
  | some b => b
  | none => false

/-- Semantics of the Python `sep.join(list)` builtin. -/
def strJoin (sep : String) : List String → String
  | [] => ""
  | [x] => x
  | x :: xs => x ++ sep ++ strJoin sep xs

/-- The `KiwiBootLoaderIsoLinuxPlatformError` exception raised by
`post_init` for an unsupported host architecture. -/
structure KiwiBootLoaderIsoLinuxPlatformError where
  message : String
deriving DecidableEq

/-- The `KiwiTemplateError` exception raised by the two render methods. -/
structure KiwiTemplateError where
  message : String
deriving DecidableEq

/-- A Python exception raised by a template substitution, reduced to its
class name (`type(e).__name__`) and message (`format(e)`). -/
structure PyError where
  name : String
  msg : String
deriving DecidableEq

/-- External inputs read during `post_init`: the host architecture from
`platform.machine()`, the XML build-type accessors, the `Defaults`
policy values, and the base-class helpers called there. -/
structure BuildEnv where
  custom_args : List (String × String)
  machine_arch : String
  volid : Option String
  flags : Option String
  initrd_system : Option String
  hybridpersistent : Option Bool
  hybridpersistent_filesystem : Option String
  bootloader_console : Option String
  mediacheck : Option Bool
  is_xen_server : Bool
  gfxmode : String
  boot_timeout_seconds : Nat
  cmdline : String
  failsafe_boot_requested : Bool
  default_install_volume_id : String
  default_volume_id : String
  default_live_iso_type : String
  persistent_boot_options : Option String → List String
  failsafe_kernel_options : String

/-- The instance attributes of `BootLoaderConfigIsoLinux` established by
`post_init` and mutated by the render methods. -/
structure IsoState where
  custom_args : List (String × String)
  arch : String
  install_volid : String
  volume_id : String
  live_type : String
  live_boot_options : List String
  install_boot_options : List String
  terminal : Option String
  gfxmode : String
  timeout : Nat
  cmdline : String
  cmdline_failsafe : String
  failsafe_boot : Bool
  mediacheck_boot : Option Bool
  multiboot : Bool
  config : Option String
  config_message : Option String
deriving DecidableEq

/-- The architecture check at the top of `post_init`: `x86_64` is kept,
`i686` and `i586` become `ix86`, anything else raises
`KiwiBootLoaderIsoLinuxPlatformError`. -/
def resolve_arch (arch : String) :
    Except KiwiBootLoaderIsoLinuxPlatformError String :=
  if arch = "x86_64" then
    Except.ok arch
  else if arch = "i686" ∨ arch = "i586" then
    Except.ok "ix86"
  else
    Except.error
      ⟨"host architecture " ++ arch ++ " not supported for isolinux setup"⟩

/-- The instance attributes `post_init` assigns once the architecture
check has passed with resolved tag `arch`. -/
def mk_post_init_state (env : BuildEnv) (arch : String) : IsoState :=
  let install_volid := pyOrStr env.volid env.default_install_volume_id
  let volume_id := pyOrStr env.volid env.default_volume_id
  let live_type := pyOrStr env.flags env.default_live_iso_type
  let live_boot_options :=
    ["root=live:CDLABEL=" ++ volume_id, "rd.live.image"]
  let install_boot_options := ["loglevel=0"]
  let install_boot_options :=
    if env.initrd_system = some "dracut" then
      install_boot_options ++ ["root=install:CDLABEL=" ++ install_volid]
    else
      install_boot_options
  let live_boot_options :=
    if pyTruthyBool env.hybridpersistent then
      live_boot_options ++
        env.persistent_boot_options env.hybridpersistent_filesystem
    else
      live_boot_options
  { custom_args := env.custom_args
    arch := arch
    install_volid := install_volid
    volume_id := volume_id
    live_type := live_type
    live_boot_options := live_boot_options
    install_boot_options := install_boot_options
    terminal := env.bootloader_console
    gfxmode := env.gfxmode
    timeout := env.boot_timeout_seconds * 10
    cmdline := env.cmdline
    cmdline_failsafe :=
      strJoin " " [env.cmdline, env.failsafe_kernel_options]
    failsafe_boot := env.failsafe_boot_requested
    mediacheck_boot := env.mediacheck
    multiboot := env.is_xen_server
    config := none
    config_message := none }

/-- Embedding of `BootLoaderConfigIsoLinux.post_init`: resolve the host
architecture, then assign the instance attributes. -/
def post_init (env : BuildEnv) :
    Except KiwiBootLoaderIsoLinuxPlatformError IsoState :=
  match resolve_arch env.machine_arch with
  | Except.error e => Except.error e
  | Except.ok arch => Except.ok (mk_post_init_state env arch)

/-- External base-class services and filesystem context used by the render
methods, the writer and the asset stager: the filesystem oracle (path to
file content, `none` when absent), `self.root_dir`, the base-class lookup
helpers, and `self.get_boot_theme()`. -/
structure BaseCtx where
  fs : String → Option String
  root_dir : String
  install_image_boot_default : String
  menu_entry_install_title : String
  menu_entry_title_plain : String
  boot_theme : Option String

/-- Embedding of `_get_iso_boot_path`. -/
def _get_iso_boot_path (ctx : BaseCtx) (st : IsoState) : String :=
  ctx.root_dir ++ "/boot/" ++ st.arch ++ "/loader"

/-- Embedding of `_have_theme`: check for a `bootlogo` marker file under
the architecture boot path. -/
def _have_theme (ctx : BaseCtx) (st : IsoState) : Bool :=
  (ctx.fs (_get_iso_boot_path ctx st ++ "/bootlogo")).isSome

/-- The substitution parameter map built by the two render methods.  The
keys are fixed in the source; `hypervisor` is only added in the multiboot
branch and is therefore optional. -/
structure Params where
  default_boot : String
  kernel_file : String
  initrd_file : String
  boot_options : String
  failsafe_boot_options : String
  gfxmode : String
  boot_timeout : Nat
  title : String
  hypervisor : Option String
deriving DecidableEq

/-- A renderable template: substitution either produces the rendered text
or raises a Python exception. -/
def Template : Type :=
  Params → Except PyError String

/-- The external template provider `BootLoaderTemplateIsoLinux`, one
getter per template family exactly as consumed by the render methods. -/
structure BootLoaderTemplateIsoLinux where
  get_multiboot_install_template : Bool → Bool → Option String → Template
  get_install_template : Bool → Bool → Option String → Template
  get_install_message_template : Template
  get_multiboot_template : Bool → Bool → Option String → Option Bool → Template
  get_template : Bool → Bool → Option String → Option Bool → Template
  get_message_template : Template

/-- The parameter dict literal of `setup_install_image_config`, before the
multiboot branch possibly adds the `hypervisor` key. -/
def install_parameters (ctx : BaseCtx) (st : IsoState)
    (kernel initrd : String) : Params :=
  { default_boot := ctx.install_image_boot_default
    kernel_file := kernel
    initrd_file := initrd
    boot_options := strJoin " " ([st.cmdline] ++ st.install_boot_options)
    failsafe_boot_options :=
      strJoin " " ([st.cmdline_failsafe] ++ st.install_boot_options)
    gfxmode := st.gfxmode
    boot_timeout := st.timeout
    title := ctx.menu_entry_install_title
    hypervisor := none }

/-- The parameter map of `setup_install_image_config` as passed to
substitution: with the `hypervisor` key exactly when multiboot is set. -/
def install_render_parameters (ctx : BaseCtx) (st : IsoState)
    (hypervisor kernel initrd : String) : Params :=
  if st.multiboot then
    { install_parameters ctx st kernel initrd with
        hypervisor := some hypervisor }
  else
    install_parameters ctx st kernel initrd

/-- The main configuration template selected by
`setup_install_image_config`. -/
def install_config_template (tp : BootLoaderTemplateIsoLinux)
    (ctx : BaseCtx) (st : IsoState) : Template :=
  if st.multiboot then
    tp.get_multiboot_install_template
      st.failsafe_boot (_have_theme ctx st) st.terminal
  else
    tp.get_install_template st.failsafe_boot (_have_theme ctx st) st.terminal

/-- Embedding of `setup_install_image_config`: build the parameter map,
select the template family, substitute the main template into
`self.config` and then the message template into `self.config_message`.
A substitution failure is re-raised as a `KiwiTemplateError`; the result
pairs the (possibly partially updated) object state with the raised
exception, if any.  The `mbrid` argument is accepted but unused. -/
def setup_install_image_config (tp : BootLoaderTemplateIsoLinux)
    (ctx : BaseCtx) (st : IsoState)
    (mbrid hypervisor kernel initrd : String) :
    IsoState × Option KiwiTemplateError :=
  let parameters := install_render_parameters ctx st hypervisor kernel initrd
  let template := install_config_template tp ctx st
  match template parameters with
  | Except.error e => (st, some ⟨e.name ++ ": " ++ e.msg⟩)
  | Except.ok cfg =>
    let st1 := { st with config := some cfg }
    match tp.get_install_message_template parameters with
    | Except.error e => (st1, some ⟨e.name ++ ": " ++ e.msg⟩)
    | Except.ok m => ({ st1 with config_message := some m }, none)

/-- The parameter dict literal of `setup_live_image_config`, before the
multiboot branch possibly adds the `hypervisor` key. -/
def live_parameters (ctx : BaseCtx) (st : IsoState)
    (kernel initrd : String) : Params :=
  { default_boot := ctx.menu_entry_title_plain
    kernel_file := kernel
    initrd_file := initrd
    boot_options := strJoin " " ([st.cmdline] ++ st.live_boot_options)
    failsafe_boot_options :=
      strJoin " " ([st.cmdline_failsafe] ++ st.live_boot_options)
    gfxmode := st.gfxmode
    boot_timeout := st.timeout
    title := ctx.menu_entry_title_plain
    hypervisor := none }

/-- The parameter map of `setup_live_image_config` as passed to
substitution: with the `hypervisor` key exactly when multiboot is set. -/
def live_render_parameters (ctx : BaseCtx) (st : IsoState)
    (hypervisor kernel initrd : String) : Params :=
  if st.multiboot then
    { live_parameters ctx st kernel initrd with hypervisor := some hypervisor }
  else
    live_parameters ctx st kernel initrd

/-- The main configuration template selected by
`setup_live_image_config`. -/
def live_config_template (tp : BootLoaderTemplateIsoLinux)
    (ctx : BaseCtx) (st : IsoState) : Template :=
  if st.multiboot then
    tp.get_multiboot_template
      st.failsafe_boot (_have_theme ctx st) st.terminal st.mediacheck_boot
  else
    tp.get_template
      st.failsafe_boot (_have_theme ctx st) st.terminal st.mediacheck_boot

/-- Embedding of `setup_live_image_config`, structured exactly like
`setup_install_image_config` but over the live parameter map and live
template family.  The `mbrid` argument is accepted but unused. -/
def setup_live_image_config (tp : BootLoaderTemplateIsoLinux)
    (ctx : BaseCtx) (st : IsoState)
    (mbrid hypervisor kernel initrd : String) :
    IsoState × Option KiwiTemplateError :=
  let parameters := live_render_parameters ctx st hypervisor kernel initrd
  let template := live_config_template tp ctx st
  match template parameters with
  | Except.error e => (st, some ⟨e.name ++ ": " ++ e.msg⟩)
  | Except.ok cfg =>
    let st1 := { st with config := some cfg }
    match tp.get_message_template parameters with
    | Except.error e => (st1, some ⟨e.name ++ ": " ++ e.msg⟩)
    | Except.ok m => ({ st1 with config_message := some m }, none)

/-- A filesystem action performed by `write`. -/
inductive FsAction where
  | create (dir : String)
  | writeFile (path : String) (content : String)
deriving DecidableEq

/-- Embedding of `write`: `isolinux.cfg` is created (after creating the
boot path directory) only when `self.config` is truthy, and
`isolinux.msg` only when `self.config_message` is truthy. -/
def write (ctx : BaseCtx) (st : IsoState) : List FsAction :=
  let config_dir := _get_iso_boot_path ctx st
  let cfg_actions :=
    match st.config with
    | some s =>
      if s = "" then []
      else
        [FsAction.create config_dir,
         FsAction.writeFile (config_dir ++ "/isolinux.cfg") s]
    | none => []
  let msg_actions :=
    match st.config_message with
    | some s =>
      if s = "" then []
      else [FsAction.writeFile (config_dir ++ "/isolinux.msg") s]
    | none => []
  cfg_actions ++ msg_actions

/-- An effect performed during asset staging: directory wipe/create,
`shutil.copy` into the staging directory, an external command
(`Command.run` with its `raise_on_error` mode), and the final
`DataSync.sync_data`. -/
inductive Effect where
  | wipe (path : String)
  | create (path : String)
  | copyFile (src : String) (dst_dir : String)
  | run (cmd : List String) (raise_on_error : Bool)
  | syncData (src : String) (dst : String) (options : List String)
deriving DecidableEq

/-- Result of a staging run: the ordered effect trace, together with the
content the staging directory holds per staged filename (the
interpretation of the `shutil.copy` calls, which copy a source file into
the staging directory under its basename). -/
structure StageResult where
  effects : List Effect
  staged : List (String × String)
deriving DecidableEq

/-- Replace the binding of key `k` in an association list (or append it),
modelling a file copy overwriting an existing file of the same name. -/
def setEntry (l : List (String × String)) (k v : String) :
    List (String × String) :=
  match l with
  | [] => [(k, v)]
  | (k1, v1) :: t => if k1 = k then (k, v) :: t else (k1, v1) :: setEntry t k v

/-- Content found in the staging directory under filename `k`. -/
def lookupEntry : List (String × String) → String → Option String
  | [], _ => none
  | (k1, v1) :: t, k => if k1 = k then some v1 else lookupEntry t k

/-- The fixed list of required syslinux loader filenames. -/
def syslinux_file_names : List String :=
  ["isolinux.bin",
   "ldlinux.c32",
   "libcom32.c32",
   "libutil.c32",
   "gfxboot.c32",
   "gfxboot.com",
   "menu.c32",
   "chain.c32",
   "mboot.c32"]

/-- The fixed ordered candidate source directories. -/
def syslinux_dirs : List String :=
  ["/usr/share/syslinux/",
   "/usr/lib/syslinux/modules/bios/"]

/-- Body of the inner loop of the loader copy: if the candidate file
exists, `shutil.copy` it into the staging directory (overwriting any
earlier copy of the same filename). -/
def copy_syslinux_file (fs : String → Option String)
    (lookup_path loader_data f : String)
    (acc : StageResult) (d : String) : StageResult :=
  let syslinux_file := lookup_path ++ d ++ f
  match fs syslinux_file with
  | some content =>
    ⟨acc.effects ++ [Effect.copyFile syslinux_file loader_data],
     setEntry acc.staged f content⟩
  | none => acc

/-- The double loop of `_copy_loader_data_to_boot_directory`: filenames
outer, candidate directories inner. -/
def copy_syslinux_files (fs : String → Option String)
    (lookup_path loader_data : String)
    (acc : StageResult) (names : List String) : StageResult :=
  names.foldl
    (fun a f => syslinux_dirs.foldl (copy_syslinux_file fs lookup_path loader_data f) a)
    acc

/-- Embedding of `_copy_loader_data_to_boot_directory`: wipe and recreate
the staging directory, run the loader-file double loop, attempt the
best-effort memtest copy, stage optional theme assets, then create the
ISO boot path and sync the staging directory into it. -/
def _copy_loader_data_to_boot_directory (ctx : BaseCtx) (st : IsoState)
    (lookup_path : Option String) : StageResult :=
  let lookup := pyOrStr lookup_path ctx.root_dir
  let loader_data := lookup ++ "/image/loader/"
  let r0 : StageResult :=
    ⟨[Effect.wipe loader_data, Effect.create loader_data], []⟩
  let r1 := copy_syslinux_files ctx.fs lookup loader_data r0 syslinux_file_names
  let r2 : StageResult :=
    ⟨r1.effects ++
      [Effect.run
        ["bash", "-c",
         strJoin " " ["cp", lookup ++ "/boot/memtest*", loader_data ++ "/memtest"]]
        false],
     r1.staged⟩
  let theme_effects :=
    if pyTruthyStr ctx.boot_theme then
      let theme_path :=
        lookup ++ "/etc/bootsplash/themes/" ++ ctx.boot_theme.getD ""
      (if (ctx.fs (theme_path ++ "/cdrom/gfxboot.cfg")).isSome then
        [Effect.run
          ["bash", "-c", strJoin " " ["cp", theme_path ++ "/cdrom/*", loader_data]]
          true,
         Effect.run
          ["gfxboot", "--config-file", loader_data ++ "/gfxboot.cfg",
           "--change-config", "install::autodown=0"]
          true]
      else []) ++
      (if (ctx.fs (theme_path ++ "/bootloader/message")).isSome then
        [Effect.run ["cp", theme_path ++ "/bootloader/message", loader_data] true]
      else [])
    else []
  ⟨r2.effects ++ theme_effects ++
    [Effect.create (_get_iso_boot_path ctx st),
     Effect.syncData loader_data (_get_iso_boot_path ctx st) ["-z", "-a"]],
   r2.staged⟩

/-- Embedding of `setup_install_boot_images`: delegates to the loader
copy; `mbrid` is accepted but unused. -/
def setup_install_boot_images (ctx : BaseCtx) (st : IsoState)
    (mbrid : String) (lookup_path : Option String) : StageResult :=
  _copy_loader_data_to_boot_directory ctx st lookup_path

/-- Embedding of `setup_live_boot_images`: calls
`setup_install_boot_images` because no different action is required. -/
def setup_live_boot_images (ctx : BaseCtx) (st : IsoState)
    (mbrid : String) (lookup_path : Option String) : StageResult :=
  setup_install_boot_images ctx st mbrid lookup_path

/-- A concrete build environment: x86_64 host, no volume id configured in
the XML description (so the `Defaults` policy values apply), dracut
initrd, hybrid-persistent unset, not a xen server. -/
def envW : BuildEnv :=
  { custom_args := []
    machine_arch := "x86_64"
    volid := none
    flags := none
    initrd_system := some "dracut"
    hybridpersistent := none
    hybridpersistent_filesystem := none
    bootloader_console := none
    mediacheck := none
    is_xen_server := false
    gfxmode := "800x600"
    boot_timeout_seconds := 10
    cmdline := "splash"
    failsafe_boot_requested := true
    default_install_volume_id := "INSTALL1"
    default_volume_id := "LIVE123"
    default_live_iso_type := "overlay"
    persistent_boot_options := fun _ => []
    failsafe_kernel_options := "ide=nodma" }

/-- The object state `post_init` computes from `envW`. -/
def stW : IsoState :=
  { custom_args := []
    arch := "x86_64"
    install_volid := "INSTALL1"
    volume_id := "LIVE123"
    live_type := "overlay"
    live_boot_options := ["root=live:CDLABEL=LIVE123", "rd.live.image"]
    install_boot_options := ["loglevel=0", "root=install:CDLABEL=INSTALL1"]
    terminal := none
    gfxmode := "800x600"
    timeout := 100
    cmdline := "splash"
    cmdline_failsafe := "splash ide=nodma"
    failsafe_boot := true
    mediacheck_boot := none
    multiboot := false
    config := none
    config_message := none }

/-- A concrete variant of `envW` with the hybrid-persistent flag set and
a nonempty filesystem-keyed persistent-option policy. -/
def envP : BuildEnv :=
  { envW with
      hybridpersistent := some true
      hybridpersistent_filesystem := some "ext4"
      persistent_boot_options := fun _ => ["rd.live.overlay.persistent"] }

/-- The object state `post_init` computes from `envP`. -/
def stP : IsoState :=
  { stW with
      live_boot_options :=
        ["root=live:CDLABEL=LIVE123", "rd.live.image",
         "rd.live.overlay.persistent"] }

/-- A concrete base-class context with an empty filesystem. -/
def ctxW : BaseCtx :=
  { fs := fun _ => none
    root_dir := "/ri"
    install_image_boot_default := "0"
    menu_entry_install_title := "Install Title"
    menu_entry_title_plain := "Live Title"
    boot_theme := none }

/-- A state holding a previously rendered config and message text. -/
def stR : IsoState :=
  { stW with config := some "OLD", config_message := some "OLDMSG" }

/-- A template provider whose main config templates substitute
successfully but whose message templates fail to substitute. -/
def tpMsgFail : BootLoaderTemplateIsoLinux :=
  { get_multiboot_install_template := fun _ _ _ => fun _ => Except.ok "NEW"
    get_install_template := fun _ _ _ => fun _ => Except.ok "NEW"
    get_install_message_template := fun _ => Except.error ⟨"KeyError", "title"⟩
    get_multiboot_template := fun _ _ _ _ => fun _ => Except.ok "NEWLIVE"
    get_template := fun _ _ _ _ => fun _ => Except.ok "NEWLIVE"
    get_message_template := fun _ => Except.error ⟨"KeyError", "title"⟩ }

/-- A template provider on which every substitution fails. -/
def tpAllFail : BootLoaderTemplateIsoLinux :=
  { get_multiboot_install_template :=
      fun _ _ _ => fun _ => Except.error ⟨"KeyError", "gfxmode"⟩
    get_install_template := fun _ _ _ => fun _ => Except.error ⟨"KeyError", "gfxmode"⟩
    get_install_message_template := fun _ => Except.error ⟨"KeyError", "gfxmode"⟩
    get_multiboot_template :=
      fun _ _ _ _ => fun _ => Except.error ⟨"KeyError", "gfxmode"⟩
    get_template := fun _ _ _ _ => fun _ => Except.error ⟨"KeyError", "gfxmode"⟩
    get_message_template := fun _ => Except.error ⟨"KeyError", "gfxmode"⟩ }

/-- A state holding previously rendered texts whose config and message
are explicitly the empty string. -/
def stE : IsoState :=
  { stW with config := some "", config_message := some "" }

/-- A filesystem oracle holding `gfxboot.c32` in both candidate syslinux
directories under root `/ri`, with differing content. -/
def fsW : String → Option String := fun p =>
  if p = "/ri/usr/share/syslinux/gfxboot.c32" then some "AAA"
  else if p = "/ri/usr/lib/syslinux/modules/bios/gfxboot.c32" then some "BBB"
  else none

/-- The base-class context `ctxW` equipped with the oracle `fsW`. -/
def ctxS : BaseCtx :=
  { ctxW with fs := fsW }

theorem post_init_ok_state {env : BuildEnv} {st : IsoState}
    (h : post_init env = Except.ok st) :
    ∃ a, resolve_arch env.machine_arch = Except.ok a ∧
      st = mk_post_init_state env a := by
  unfold post_init at h
  cases har : resolve_arch env.machine_arch with
  | error e =>
    rw [har] at h
    exact Except.noConfusion h
  | ok a =>
    rw [har] at h
    exact ⟨a, rfl, (Except.ok.inj h).symm⟩

theorem root_install_ne_loglevel (s : String) :
    ¬ ("root=install:CDLABEL=" ++ s = "loglevel=0") := by
  intro h
  have h2 := congrArg String.length h
  rw [String.length_append] at h2
  have h3 : ("root=install:CDLABEL=" : String).length = 21 := rfl
  have h4 : ("loglevel=0" : String).length = 10 := rfl
  rw [h3, h4] at h2
  omega

/-- C4: for every host architecture string, construction resolves
`x86_64` to the tag `x86_64`, and `i686` or `i586` to `ix86`; every
other architecture makes `post_init` raise a
`KiwiBootLoaderIsoLinuxPlatformError` naming the unsupported
architecture, and these are the only outcomes. -/
theorem post_init_architecture_mapping (env : BuildEnv) :
    (env.machine_arch = "x86_64" →
      ∃ st, post_init env = Except.ok st ∧ st.arch = "x86_64") ∧
    ((env.machine_arch = "i686" ∨ env.machine_arch = "i586") →
      ∃ st, post_init env = Except.ok st ∧ st.arch = "ix86") ∧
    (env.machine_arch ≠ "x86_64" → env.machine_arch ≠ "i686" →
      env.machine_arch ≠ "i586" →
      post_init env = Except.error
        ⟨"host architecture " ++ env.machine_arch ++
          " not supported for isolinux setup"⟩) := by
  refine ⟨?_, ?_, ?_⟩
  · intro h
    exact ⟨mk_post_init_state env "x86_64",
      by simp [post_init, resolve_arch, h], rfl⟩
  · intro h
    rcases h with h | h <;>
      exact ⟨mk_post_init_state env "ix86",
        by simp [post_init, resolve_arch, h], rfl⟩
  · intro h1 h2 h3
    simp [post_init, resolve_arch, h1, h2, h3]

/-- Witness for C4: instantiation on the concrete x86_64 environment. -/
theorem post_init_architecture_mapping_witness :
    ∃ st, post_init envW = Except.ok st ∧ st.arch = "x86_64" :=
  (post_init_architecture_mapping envW).1 rfl

/-- C5: whenever construction succeeds, `install_boot_options` contains
`loglevel=0`, and contains the `root=install:CDLABEL=` token for the
install volume id exactly when the configured initrd system is
`dracut`. -/
theorem install_boot_options_spec (env : BuildEnv) (st : IsoState)
    (h : post_init env = Except.ok st) :
    "loglevel=0" ∈ st.install_boot_options ∧
    (("root=install:CDLABEL=" ++ st.install_volid) ∈ st.install_boot_options ↔
      env.initrd_system = some "dracut") := by
  obtain ⟨a, _, hst⟩ := post_init_ok_state h
  subst hst
  by_cases hd : env.initrd_system = some "dracut" <;>
    simp [mk_post_init_state, hd, root_install_ne_loglevel]

/-- Witness for C5: instantiation on the concrete dracut environment. -/
theorem install_boot_options_spec_witness :
    post_init envW = Except.ok stW ∧
    "loglevel=0" ∈ stW.install_boot_options ∧
    ("root=install:CDLABEL=" ++ stW.install_volid) ∈ stW.install_boot_options :=
  ⟨rfl, (install_boot_options_spec envW stW rfl).1,
    (install_boot_options_spec envW stW rfl).2.mpr rfl⟩

/-- C7: whenever construction succeeds, `live_boot_options` contains the
`root=live:CDLABEL=` token for the volume id and `rd.live.image`, and is
extended with the filesystem-keyed persistent-boot tokens exactly when
the hybrid-persistent flag is set. -/
theorem live_boot_options_spec (env : BuildEnv) (st : IsoState)
    (h : post_init env = Except.ok st) :
    ("root=live:CDLABEL=" ++ st.volume_id) ∈ st.live_boot_options ∧
    "rd.live.image" ∈ st.live_boot_options ∧
    (pyTruthyBool env.hybridpersistent = true →
      st.live_boot_options =
        ["root=live:CDLABEL=" ++ st.volume_id, "rd.live.image"] ++
          env.persistent_boot_options env.hybridpersistent_filesystem) ∧
    (pyTruthyBool env.hybridpersistent = false →
      st.live_boot_options =
        ["root=live:CDLABEL=" ++ st.volume_id, "rd.live.image"]) := by
  obtain ⟨a, _, hst⟩ := post_init_ok_state h
  subst hst
  by_cases hb : pyTruthyBool env.hybridpersistent <;>
    simp [mk_post_init_state, hb]

/-- Witness for C7: instantiation on the concrete hybrid-persistent
environment. -/
theorem live_boot_options_spec_witness :
    post_init envP = Except.ok stP ∧
    stP.live_boot_options =
      ["root=live:CDLABEL=" ++ stP.volume_id, "rd.live.image"] ++
        envP.persistent_boot_options envP.hybridpersistent_filesystem :=
  ⟨rfl, (live_boot_options_spec envP stP rfl).2.2.1 rfl⟩

/-- C8: whenever construction succeeds, the stored timeout used as the
`boot_timeout` render parameter is the configured boot-timeout seconds
times ten. -/
theorem boot_timeout_deciseconds (env : BuildEnv) (st : IsoState)
    (h : post_init env = Except.ok st) :
    st.timeout = env.boot_timeout_seconds * 10 := by
  obtain ⟨a, _, hst⟩ := post_init_ok_state h
  subst hst
  rfl

/-- Witness for C8: instantiation on the concrete environment with a
ten-second timeout. -/
theorem boot_timeout_deciseconds_witness :
    post_init envW = Except.ok stW ∧
    stW.timeout = envW.boot_timeout_seconds * 10 :=
  ⟨rfl, boot_timeout_deciseconds envW stW rfl⟩

/-- C3: with no volume id configured, default volume ids `LIVE123` and
`INSTALL1`, a dracut initrd, hybrid-persistent unset and multiboot off,
the `boot_options` parameter built by `setup_install_image_config` with
kernel `linux` and initrd `initrd` is the base cmdline followed by
` loglevel=0 root=install:CDLABEL=INSTALL1`. -/
theorem install_boot_options_parameter_end_to_end
    (env : BuildEnv) (st : IsoState) (ctx : BaseCtx)
    (hv : env.volid = none)
    (hdv : env.default_volume_id = "LIVE123")
    (hdi : env.default_install_volume_id = "INSTALL1")
    (hin : env.initrd_system = some "dracut")
    (hhp : env.hybridpersistent = none)
    (hx : env.is_xen_server = false)
    (h : post_init env = Except.ok st) :
    (install_render_parameters ctx st "xen.gz" "linux" "initrd").boot_options =
      env.cmdline ++ " loglevel=0 root=install:CDLABEL=INSTALL1" := by
  obtain ⟨a, _, hst⟩ := post_init_ok_state h
  subst hst
  simp [install_render_parameters, install_parameters, mk_post_init_state,
    hv, hdi, hin, hx, pyOrStr, strJoin]
  rw [String.append_assoc]
  rfl

/-- Witness for C3: instantiation on the concrete environment. -/
theorem install_boot_options_parameter_end_to_end_witness :
    post_init envW = Except.ok stW ∧
    (install_render_parameters ctxW stW "xen.gz" "linux" "initrd").boot_options =
      envW.cmdline ++ " loglevel=0 root=install:CDLABEL=INSTALL1" :=
  ⟨rfl, install_boot_options_parameter_end_to_end envW stW ctxW
    rfl rfl rfl rfl rfl rfl rfl⟩

/-- C9: for every `mbrid` and `lookup_path`, `setup_live_boot_images`
performs exactly the same effects as `setup_install_boot_images`. -/
theorem setup_live_boot_images_eq_install (ctx : BaseCtx) (st : IsoState)
    (mbrid : String) (lookup_path : Option String) :
    setup_live_boot_images ctx st mbrid lookup_path =
      setup_install_boot_images ctx st mbrid lookup_path := rfl

/-- C10: two render calls differing only in `mbrid` yield identical held
config and message texts, for both the install and the live entry
point. -/
theorem image_config_ignores_mbrid (tp : BootLoaderTemplateIsoLinux)
    (ctx : BaseCtx) (st : IsoState) (m1 m2 hypervisor kernel initrd : String) :
    ((setup_install_image_config tp ctx st m1 hypervisor kernel initrd).1.config =
      (setup_install_image_config tp ctx st m2 hypervisor kernel initrd).1.config) ∧
    ((setup_install_image_config tp ctx st m1 hypervisor kernel initrd).1.config_message =
      (setup_install_image_config tp ctx st m2 hypervisor kernel initrd).1.config_message) ∧
    ((setup_live_image_config tp ctx st m1 hypervisor kernel initrd).1.config =
      (setup_live_image_config tp ctx st m2 hypervisor kernel initrd).1.config) ∧
    ((setup_live_image_config tp ctx st m1 hypervisor kernel initrd).1.config_message =
      (setup_live_image_config tp ctx st m2 hypervisor kernel initrd).1.config_message) :=
  ⟨rfl, rfl, rfl, rfl⟩

/-- C2 counterexample: a state whose held config and message texts are
explicitly the empty string makes `write` create no file at all, against
the claim that an explicitly empty string still creates an empty file. -/
theorem write_empty_string_creates_no_file :
    stE.config = some "" ∧ stE.config_message = some "" ∧
    write ctxW stE = [] :=
  ⟨rfl, rfl, rfl⟩

theorem append_ne_append_of_ne {a b : String} (d : String) (h : ¬ (a = b)) :
    ¬ (d ++ a = d ++ b) := by
  intro he
  apply h
  have h2 := congrArg String.data he
  rw [String.data_append, String.data_append] at h2
  exact String.ext (List.append_cancel_left h2)

/-- C2 amended: `write` creates `isolinux.cfg` exactly when the held
config text is truthy (non-null and non-empty), and `isolinux.msg`
exactly when the held message text is truthy; a null or empty value
creates no file for that text. -/
theorem write_creates_file_iff_truthy (ctx : BaseCtx) (st : IsoState) :
    ((∃ c, FsAction.writeFile (_get_iso_boot_path ctx st ++ "/isolinux.cfg") c ∈
        write ctx st) ↔ pyTruthyStr st.config = true) ∧
    ((∃ c, FsAction.writeFile (_get_iso_boot_path ctx st ++ "/isolinux.msg") c ∈
        write ctx st) ↔ pyTruthyStr st.config_message = true) := by
  have hne : ¬ (_get_iso_boot_path ctx st ++ "/isolinux.cfg" =
      _get_iso_boot_path ctx st ++ "/isolinux.msg") :=
    append_ne_append_of_ne _ (by decide)
  have hne2 : ¬ (_get_iso_boot_path ctx st ++ "/isolinux.msg" =
      _get_iso_boot_path ctx st ++ "/isolinux.cfg") := fun hh => hne hh.symm
  rcases hc : st.config with _ | s
  · rcases hm : st.config_message with _ | t
    · simp [write, hc, hm, pyTruthyStr]
    · by_cases ht : t = "" <;>
        simp [write, hc, hm, pyTruthyStr, ht, hne, hne2]
  · rcases hm : st.config_message with _ | t
    · by_cases hs : s = "" <;>
        simp [write, hc, hm, pyTruthyStr, hs, hne, hne2]
    · by_cases hs : s = "" <;> by_cases ht : t = "" <;>
        simp [write, hc, hm, pyTruthyStr, hs, ht, hne, hne2]

/-- C1 counterexample: on templates whose main config substitution
succeeds while the message substitution fails, a failing call to
`setup_install_image_config` overwrites the previously held config text,
so the held texts are not left unchanged on every substitution
failure. -/
theorem render_failure_partial_overwrite :
    stR.config = some "OLD" ∧ stR.config_message = some "OLDMSG" ∧
    ((setup_install_image_config tpMsgFail ctxW stR
        "mbrid" "xen.gz" "linux" "initrd").2.isSome = true) ∧
    ¬ ((setup_install_image_config tpMsgFail ctxW stR
        "mbrid" "xen.gz" "linux" "initrd").1.config = some "OLD") := by
  decide

/-- C1 amended: on a failing render call (install or live), the held
message text is never overwritten, and when the main config template
substitution is the one that fails the whole state, including the held
config text, is unchanged; only a failure of the message substitution
after a successful main substitution overwrites the held config text. -/
theorem render_failure_state (tp : BootLoaderTemplateIsoLinux)
    (ctx : BaseCtx) (st : IsoState)
    (mbrid hypervisor kernel initrd c m : String)
    (hc : st.config = some c) (hm : st.config_message = some m) :
    (((setup_install_image_config tp ctx st mbrid hypervisor kernel
          initrd).2.isSome = true →
        (setup_install_image_config tp ctx st mbrid hypervisor kernel
          initrd).1.config_message = some m) ∧
      ((∃ e, install_config_template tp ctx st
          (install_render_parameters ctx st hypervisor kernel initrd) =
            Except.error e) →
        (setup_install_image_config tp ctx st mbrid hypervisor kernel
          initrd).1 = st)) ∧
    (((setup_live_image_config tp ctx st mbrid hypervisor kernel
          initrd).2.isSome = true →
        (setup_live_image_config tp ctx st mbrid hypervisor kernel
          initrd).1.config_message = some m) ∧
      ((∃ e, live_config_template tp ctx st
          (live_render_parameters ctx st hypervisor kernel initrd) =
            Except.error e) →
        (setup_live_image_config tp ctx st mbrid hypervisor kernel
          initrd).1 = st)) := by
  constructor
  · constructor
    · intro hfail
      cases h1 : install_config_template tp ctx st
          (install_render_parameters ctx st hypervisor kernel initrd) with
      | error e => simp [setup_install_image_config, h1, hm]
      | ok cfg =>
        cases h2 : tp.get_install_message_template
            (install_render_parameters ctx st hypervisor kernel initrd) with
        | error e => simp [setup_install_image_config, h1, h2, hm]
        | ok mm => simp [setup_install_image_config, h1, h2] at hfail
    · rintro ⟨e, he⟩
      simp [setup_install_image_config, he]
  · constructor
    · intro hfail
      cases h1 : live_config_template tp ctx st
          (live_render_parameters ctx st hypervisor kernel initrd) with
      | error e => simp [setup_live_image_config, h1, hm]
      | ok cfg =>
        cases h2 : tp.get_message_template
            (live_render_parameters ctx st hypervisor kernel initrd) with
        | error e => simp [setup_live_image_config, h1, h2, hm]
        | ok mm => simp [setup_live_image_config, h1, h2] at hfail
    · rintro ⟨e, he⟩
      simp [setup_live_image_config, he]

/-- Witness for C1 amended: on templates where every substitution fails,
a failing call leaves the full state, config and message text included,
unchanged, for both entry points. -/
theorem render_failure_state_witness :
    stR.config = some "OLD" ∧ stR.config_message = some "OLDMSG" ∧
    (setup_install_image_config tpAllFail ctxW stR
      "mbrid" "xen.gz" "linux" "initrd").1.config_message = some "OLDMSG" ∧
    (setup_install_image_config tpAllFail ctxW stR
      "mbrid" "xen.gz" "linux" "initrd").1 = stR ∧
    (setup_live_image_config tpAllFail ctxW stR
      "mbrid" "xen.gz" "linux" "initrd").1 = stR := by
  refine ⟨rfl, rfl, ?_, ?_, ?_⟩
  · exact (render_failure_state tpAllFail ctxW stR
      "mbrid" "xen.gz" "linux" "initrd" "OLD" "OLDMSG" rfl rfl).1.1 (by decide)
  · exact (render_failure_state tpAllFail ctxW stR
      "mbrid" "xen.gz" "linux" "initrd" "OLD" "OLDMSG" rfl rfl).1.2
      ⟨⟨"KeyError", "gfxmode"⟩, rfl⟩
  · exact (render_failure_state tpAllFail ctxW stR
      "mbrid" "xen.gz" "linux" "initrd" "OLD" "OLDMSG" rfl rfl).2.2
      ⟨⟨"KeyError", "gfxmode"⟩, rfl⟩

theorem lookupEntry_setEntry_self (l : List (String × String))
    (k v : String) : lookupEntry (setEntry l k v) k = some v := by
  induction l with
  | nil => simp [setEntry, lookupEntry]
  | cons p t ih =>
    obtain ⟨k1, v1⟩ := p
    by_cases h : k1 = k <;> simp [setEntry, lookupEntry, h, ih]

theorem lookupEntry_setEntry_ne (l : List (String × String))
    (k v k2 : String) (h : ¬ (k = k2)) :
    lookupEntry (setEntry l k v) k2 = lookupEntry l k2 := by
  induction l with
  | nil => simp [setEntry, lookupEntry, h]
  | cons p t ih =>
    obtain ⟨k1, v1⟩ := p
    by_cases h1 : k1 = k
    · subst h1
      simp [setEntry, lookupEntry, h]
    · by_cases h2 : k1 = k2
      · subst h2
        simp [setEntry, lookupEntry, h1]
      · simp [setEntry, lookupEntry, h1, h2, ih]

theorem copy_syslinux_file_staged_ne (fs : String → Option String)
    (lookup_path loader_data g : String) (acc : StageResult) (d f : String)
    (h : ¬ (f = g)) :
    lookupEntry (copy_syslinux_file fs lookup_path loader_data g acc d).staged f =
      lookupEntry acc.staged f := by
  cases hfs : fs (lookup_path ++ d ++ g) with
  | some content =>
    simp only [copy_syslinux_file, hfs]
    exact lookupEntry_setEntry_ne acc.staged g content f (fun hh => h hh.symm)
  | none =>
    simp only [copy_syslinux_file, hfs]

theorem foldl_copy_staged_ne (fs : String → Option String)
    (lookup_path loader_data g f : String) (h : ¬ (f = g)) :
    ∀ (dirs : List String) (acc : StageResult),
      lookupEntry
        ((dirs.foldl (copy_syslinux_file fs lookup_path loader_data g) acc)).staged
        f =
      lookupEntry acc.staged f := by
  intro dirs
  induction dirs with
  | nil => intro acc; rfl
  | cons d t ih =>
    intro acc
    rw [List.foldl_cons, ih]
    exact copy_syslinux_file_staged_ne fs lookup_path loader_data g acc d f h

theorem copy_syslinux_files_staged_not_mem (fs : String → Option String)
    (lookup_path loader_data f : String) :
    ∀ (names : List String), f ∉ names →
      ∀ acc : StageResult,
        lookupEntry ((copy_syslinux_files fs lookup_path loader_data acc names)).staged f =
          lookupEntry acc.staged f := by
  intro names
  induction names with
  | nil => intro _ acc; rfl
  | cons g t ih =>
    intro h acc
    unfold copy_syslinux_files at *
    rw [List.foldl_cons, ih (List.not_mem_of_not_mem_cons h)]
    exact foldl_copy_staged_ne fs lookup_path loader_data g f
      (List.ne_of_not_mem_cons h) syslinux_dirs acc

theorem foldl_copy_staged_self (fs : String → Option String)
    (lookup_path loader_data f : String) (acc : StageResult) (c2 : String)
    (h2 : fs (lookup_path ++ "/usr/lib/syslinux/modules/bios/" ++ f) = some c2) :
    lookupEntry
      ((syslinux_dirs.foldl (copy_syslinux_file fs lookup_path loader_data f) acc)).staged
      f = some c2 := by
  have hd : syslinux_dirs =
      ["/usr/share/syslinux/", "/usr/lib/syslinux/modules/bios/"] := rfl
  rw [hd, List.foldl_cons, List.foldl_cons, List.foldl_nil]
  cases hfs : fs (lookup_path ++ "/usr/share/syslinux/" ++ f) with
  | some c1 =>
    simp only [copy_syslinux_file, hfs, h2]
    exact lookupEntry_setEntry_self _ f c2
  | none =>
    simp only [copy_syslinux_file, hfs, h2]
    exact lookupEntry_setEntry_self _ f c2

theorem copy_syslinux_files_staged_mem (fs : String → Option String)
    (lookup_path loader_data f c2 : String)
    (h2 : fs (lookup_path ++ "/usr/lib/syslinux/modules/bios/" ++ f) = some c2) :
    ∀ (names : List String) (acc : StageResult), f ∈ names → names.Nodup →
      lookupEntry ((copy_syslinux_files fs lookup_path loader_data acc names)).staged f =
        some c2 := by
  intro names
  induction names with
  | nil => intro acc hmem _; cases hmem
  | cons g t ih =>
    intro acc hmem hnd
    unfold copy_syslinux_files at *
    rw [List.foldl_cons]
    by_cases hfg : f = g
    · subst hfg
      have hnotin : f ∉ t := (List.nodup_cons.mp hnd).1
      have hpres := copy_syslinux_files_staged_not_mem fs lookup_path
        loader_data f t hnotin
        (syslinux_dirs.foldl (copy_syslinux_file fs lookup_path loader_data f) acc)
      unfold copy_syslinux_files at hpres
      rw [hpres]
      exact foldl_copy_staged_self fs lookup_path loader_data f acc c2 h2
    · have hmem2 : f ∈ t := by
        rcases List.mem_cons.mp hmem with h | h
        · exact absurd h hfg
        · exact h
      exact ih
        (syslinux_dirs.foldl (copy_syslinux_file fs lookup_path loader_data g) acc)
        hmem2 (List.nodup_cons.mp hnd).2

/-- C6: for a required loader filename present in both candidate source
directories, the content left in the staging directory is the one from
the directory listed later in the fixed candidate order
(last-write-wins). -/
theorem loader_copy_last_dir_wins (ctx : BaseCtx) (st : IsoState)
    (lookup_path : Option String) (f c1 c2 : String)
    (hmem : f ∈ syslinux_file_names)
    (h1 : ctx.fs (pyOrStr lookup_path ctx.root_dir ++
      "/usr/share/syslinux/" ++ f) = some c1)
    (h2 : ctx.fs (pyOrStr lookup_path ctx.root_dir ++
      "/usr/lib/syslinux/modules/bios/" ++ f) = some c2) :
    lookupEntry
      (_copy_loader_data_to_boot_directory ctx st lookup_path).staged f =
      some c2 := by
  have hstaged : (_copy_loader_data_to_boot_directory ctx st lookup_path).staged =
      (copy_syslinux_files ctx.fs (pyOrStr lookup_path ctx.root_dir)
        (pyOrStr lookup_path ctx.root_dir ++ "/image/loader/")
        ⟨[Effect.wipe (pyOrStr lookup_path ctx.root_dir ++ "/image/loader/"),
          Effect.create (pyOrStr lookup_path ctx.root_dir ++ "/image/loader/")],
         []⟩
        syslinux_file_names).staged := rfl
  rw [hstaged]
  exact copy_syslinux_files_staged_mem ctx.fs
    (pyOrStr lookup_path ctx.root_dir)
    (pyOrStr lookup_path ctx.root_dir ++ "/image/loader/") f c2 h2
    syslinux_file_names _ hmem (by decide)

/-- Witness for C6: concrete oracle holding `gfxboot.c32` with content
`AAA` in the first candidate directory and `BBB` in the second; staging
keeps `BBB`. -/
theorem loader_copy_last_dir_wins_witness :
    ("gfxboot.c32" ∈ syslinux_file_names) ∧
    ctxS.fs (pyOrStr none ctxS.root_dir ++ "/usr/share/syslinux/" ++
      "gfxboot.c32") = some "AAA" ∧
    ctxS.fs (pyOrStr none ctxS.root_dir ++ "/usr/lib/syslinux/modules/bios/" ++
      "gfxboot.c32") = some "BBB" ∧
    lookupEntry
      (_copy_loader_data_to_boot_directory ctxS stW none).staged
      "gfxboot.c32" = some "BBB" :=
  ⟨by decide, rfl, rfl,
    loader_copy_last_dir_wins ctxS stW none "gfxboot.c32" "AAA" "BBB"
      (by decide) rfl rfl⟩
